import Mathlib

/-!
Verification development for the `cell` selective-subscription state container.

The embedded program is `src/unnamed/part_001` (the `cell` function returning
`subscribe` and `update`), together with the two near-duplicate variants in
`src/src/index.ts` (whose state-updating operation is named `publish`).

JavaScript runtime values are embedded as `JSValue`: objects and arrays carry a
reference tag so that the `===` operator (`strictEq`) is reference identity on
composite values and value identity on primitives, exactly as in the language.

The underlying pub/sub primitive `pusu` is not part of the repository's
sources.  Modelled from the spec: `pusu.createPublication` allocates one topic;
`pusu.publish` delivers the published value synchronously to every
currently-registered handler in registration order; `pusu.subscribe` returns an
unsubscribe handle and repeat removal is a no-op.  Accordingly a `Cell` keeps
the registered handlers (`subs`) in registration order, `publishFire` folds the
handler body from the source over them, and `unsubscribeCell` removes by
handler id.
-/

/-- A JavaScript runtime value.  Objects and arrays carry a `ref` tag standing
for their heap reference, so that strict equality on them is reference
identity. -/
inductive JSValue where
  | undefined : JSValue
  | null : JSValue
  | bool (b : Bool) : JSValue
  | num (n : Int) : JSValue
  | str (s : String) : JSValue
  | sym (ref : Nat) : JSValue
  | arr (ref : Nat) : JSValue
  | obj (ref : Nat) (fields : List (String × JSValue)) : JSValue

/-- JavaScript strict equality `===`: value identity on primitives, reference
identity on symbols, arrays and objects. -/
def strictEq : JSValue → JSValue → Bool
  | .undefined, .undefined => true
  | .null, .null => true
  | .bool a, .bool b => a == b
  | .num a, .num b => a == b
  | .str a, .str b => a == b
  | .sym a, .sym b => a == b
  | .arr a, .arr b => a == b
  | .obj a _, .obj b _ => a == b
  | _, _ => false

/-- JavaScript truthiness of a value, as used by the `selector && ...` and
`isEqual && ...` guards in `subscribe`. -/
def truthy : JSValue → Bool
  | .undefined => false
  | .null => false
  | .bool b => b
  | .num n => n != 0
  | .str s => s != ""
  | .sym _ => true
  | .arr _ => true
  | .obj _ _ => true

/-- JavaScript property access `v.k` for selectors such as `s => s.name`:
field lookup on objects, `undefined` otherwise. -/
def getField (v : JSValue) (k : String) : JSValue :=
  match v with
  | .obj _ fields => (List.lookup k fields).getD .undefined
  | _ => .undefined

/-- One registered subscription handler, as closed over by the callback that
`subscribe` registers with `pusu.subscribe` (source lines 41-56): the optional
`selector`, the optional `isEqual` equality policy, and an `id` standing for
the handler's identity in the underlying primitive.  A falsy non-callable
`selector`/`isEqual` argument behaves in the source's ternaries exactly like an
absent one, so both are `none` here. -/
structure CellSub where
  id : Nat
  selector : Option (JSValue → JSValue)
  isEqual : Option (JSValue → JSValue → Bool)

/-- The state of one `cell` container: the argument the source passed to
`pusu.createPublication` (`pubArg`), the two mutable state variables
`previousState` and `currentState` (source lines 18-19), the registered
handlers of its single publication in registration order, and a counter
generating fresh handler ids. -/
structure Cell where
  pubArg : JSValue
  previousState : JSValue
  currentState : JSValue
  subs : List CellSub
  nextId : Nat

/-- Creation, from `src/unnamed/part_001` lines 3-19: allocate the publication
(passing the plain string `"cell"`) and set both state variables to the
initial state. -/
def cell (initialState : JSValue) : Cell :=
  { pubArg := .str "cell"
    previousState := initialState
    currentState := initialState
    subs := []
    nextId := 0 }

/-- The source's ternary `selector ? selector(x) : x`. -/
def applySel (selector : Option (JSValue → JSValue)) (x : JSValue) : JSValue :=
  match selector with
  | some f => f x
  | none => x

/-- The source's `const fnIsEqual = isEqual ? isEqual : (a, b) => a === b`. -/
def fnIsEqual (isEqual : Option (JSValue → JSValue → Bool)) :
    JSValue → JSValue → Bool :=
  match isEqual with
  | some f => f
  | none => strictEq

/-- The body of the handler registered with `pusu.subscribe` (source lines
41-56), fired with the container's `previousState` at broadcast time and the
published `state`: returns the value the subscriber is invoked with, or `none`
when the equality policy reports the selected state unchanged. -/
def handlerFire (previousState state : JSValue) (s : CellSub) : Option JSValue :=
  let prevSelectedState := applySel s.selector previousState
  let currSelectedState := applySel s.selector state
  if fnIsEqual s.isEqual currSelectedState prevSelectedState = true then none
  else some currSelectedState

/-- Modelled from the spec: `pusu.publish` delivers `state` synchronously to
every registered handler in registration order.  Returns the resulting
subscriber invocations as `(handler id, value)` pairs in delivery order. -/
def publishFire (c : Cell) (state : JSValue) : List (Nat × JSValue) :=
  c.subs.filterMap fun s => (handlerFire c.previousState state s).map fun v => (s.id, v)

/-- The side-effecting part of a successful `subscribe` call (source lines
41-62): register the handler, then immediately invoke the subscriber with
`selector ? selector(currentState) : currentState`.  Returns the new cell, the
fresh handler id, and the single immediate invocation as an `(id, value)`
pair. -/
def subscribeOk (c : Cell) (selector : Option (JSValue → JSValue))
    (isEqual : Option (JSValue → JSValue → Bool)) :
    Cell × Nat × (Nat × JSValue) :=
  let subId := c.nextId
  let c1 : Cell :=
    { c with subs := c.subs ++ [⟨subId, selector, isEqual⟩], nextId := subId + 1 }
  (c1, subId, (subId, applySel selector c.currentState))

/-- Modelled from the spec: the unsubscribe handle returned by
`pusu.subscribe` removes that handler's registration from the publication;
repeat removal is a no-op. -/
def unsubscribeCell (c : Cell) (subId : Nat) : Cell :=
  { c with subs := c.subs.filter fun s => s.id != subId }

/-- `update` from `src/unnamed/part_001` lines 65-71: set
`previousState := currentState`, set `currentState := reducer(currentState)`,
then publish the new `currentState`.  Returns the new cell together with the
subscriber invocations of the broadcast. -/
def update (c : Cell) (reducer : JSValue → JSValue) : Cell × List (Nat × JSValue) :=
  let c1 : Cell := { c with previousState := c.currentState }
  let c2 : Cell := { c1 with currentState := reducer c1.currentState }
  (c2, publishFire c2 c2.currentState)

/-- `update` with a transform that may throw (`Except.error`): the source sets
`previousState := currentState` before invoking the reducer, so a throwing
reducer leaves the cell with `previousState` already overwritten,
`currentState` untouched, nothing published, and the exception propagated
unmodified. -/
def updateE {ε : Type} (c : Cell) (reducer : JSValue → Except ε JSValue) :
    Cell × Except ε (List (Nat × JSValue)) :=
  let c1 : Cell := { c with previousState := c.currentState }
  match reducer c1.currentState with
  | .error e => (c1, .error e)
  | .ok ns =>
    let c2 : Cell := { c1 with currentState := ns }
    (c2, .ok (publishFire c2 c2.currentState))

/-- Run a sequence of `update` calls, concatenating the subscriber
invocations. -/
def runUpdates (c : Cell) : List (JSValue → JSValue) → Cell × List (Nat × JSValue)
  | [] => (c, [])
  | r :: rs =>
    let u := update c r
    let w := runUpdates u.1 rs
    (w.1, u.2 ++ w.2)

/-- An argument position of `subscribe` in the untyped JavaScript call: either
a function of the expected shape or a non-function runtime value (an omitted
argument is the non-function value `undefined`). -/
inductive Arg (F : Type) where
  | fn (f : F) : Arg F
  | val (v : JSValue) : Arg F

/-- The JavaScript test `typeof x === "function"`. -/
def typeofFn {F : Type} : Arg F → Bool
  | .fn _ => true
  | .val _ => false

/-- JavaScript truthiness of an argument (functions are truthy). -/
def truthyArg {F : Type} : Arg F → Bool
  | .fn _ => true
  | .val v => truthy v

/-- The three distinct validation failures `subscribe` can raise, in the
spec's taxonomy (the source throws `Error("subscriber must be a function.")`,
`Error("selector must be a function.")` and
`Error("isEqual must be a function.")` respectively). -/
inductive SubscribeError where
  | invalidSubscriber : SubscribeError
  | invalidSelector : SubscribeError
  | invalidEqualityPolicy : SubscribeError
deriving DecidableEq

/-- `subscribe` from `src/unnamed/part_001` lines 21-63 on untyped arguments:
the three validation guards in source order (lines 29-39), then registration
and immediate invocation.  After a passed guard, a remaining non-function
`selector`/`isEqual` is falsy and the source's ternaries treat it exactly as
absent, hence `none`. -/
def subscribeJS (c : Cell) (subscriber : Arg Unit)
    (selector : Arg (JSValue → JSValue)) (isEqual : Arg (JSValue → JSValue → Bool)) :
    Except SubscribeError (Cell × Nat × (Nat × JSValue)) :=
  if typeofFn subscriber = false then .error .invalidSubscriber
  else if truthyArg selector && !typeofFn selector then .error .invalidSelector
  else if truthyArg isEqual && !typeofFn isEqual then .error .invalidEqualityPolicy
  else
    let sel : Option (JSValue → JSValue) :=
      match selector with
      | .fn f => some f
      | .val _ => none
    let eq : Option (JSValue → JSValue → Bool) :=
      match isEqual with
      | .fn f => some f
      | .val _ => none
    .ok (subscribeOk c sel eq)

/-- The observable effect of a `subscribe` call on the container: a validation
failure throws before `pusu.subscribe` runs, so it registers nothing and
invokes nobody. -/
def subscribeStep (c : Cell) (subscriber : Arg Unit)
    (selector : Arg (JSValue → JSValue)) (isEqual : Arg (JSValue → JSValue → Bool)) :
    Cell × List (Nat × JSValue) :=
  match subscribeJS c subscriber selector isEqual with
  | .ok r => (r.1, [r.2.2])
  | .error _ => (c, [])

/-- The folded states of a sequence of reducers applied from `s`:
`[t1 s, t2 (t1 s), ...]`. -/
def folds (s : JSValue) : List (JSValue → JSValue) → List JSValue
  | [] => []
  | t :: ts => t s :: folds (t s) ts

/-- Every reducer in the sequence produces a state that is not strictly
identical (`===`) to the state it was applied to. -/
def stepsChanged (s : JSValue) : List (JSValue → JSValue) → Bool
  | [] => true
  | t :: ts => !strictEq (t s) s && stepsChanged (t s) ts

/-- The scenario of the spec's invocation-count property: create a container
with `s0`, subscribe with no selector and no equality policy, then run the
given `update` calls.  Returns every invocation of that subscriber in order,
the immediate one first. -/
def identitySubInvocations (s0 : JSValue) (ts : List (JSValue → JSValue)) :
    List (Nat × JSValue) :=
  let r := subscribeOk (cell s0) none none
  r.2.2 :: (runUpdates r.1 ts).2

/-- Modelled from the spec: the recognized creation configuration options,
each optional. -/
structure Config where
  name : Option String
  loggingEnabled : Option Bool

/-- Modelled from the spec: the five instrumentation event kinds. -/
inductive LogAction where
  | createA : LogAction
  | updateA : LogAction
  | subscribeA : LogAction
  | unsubscribeA : LogAction
  | notifyA : LogAction
deriving DecidableEq

/-- Modelled from the spec: a structured log event
`(containerName, action, state: (current, previous, selected?), meta?)`. -/
structure LogEvent where
  containerName : String
  action : LogAction
  current : JSValue
  previous : JSValue
  selected : Option JSValue
  meta : Option String

/-- Modelled from the spec: a container together with its instrumentation
configuration (`name`, `loggingEnabled`) and the number of underlying topics
its creation allocated. -/
structure CellL where
  core : Cell
  name : String
  loggingEnabled : Bool
  topicCount : Nat

/-- Modelled from the spec: event emission is gated on `loggingEnabled`; when
it is false the event structure is never built (the thunk is not forced). -/
def emitIf (loggingEnabled : Bool) (e : Unit → LogEvent) : List LogEvent :=
  if loggingEnabled then [e ()] else []

/-- Modelled from the spec: `create(initialState, config?)` — resolve `name`
(default `"Unknown"`) and `loggingEnabled` (default `false`), allocate one
underlying topic, and emit a `create` event whose current and previous state
both equal the initial state. -/
def cellL (initialState : JSValue) (config : Option Config) :
    CellL × List LogEvent :=
  let nm := (config.bind fun cf => cf.name).getD "Unknown"
  let logging := (config.bind fun cf => cf.loggingEnabled).getD false
  (⟨cell initialState, nm, logging, 1⟩,
    emitIf logging fun _ => ⟨nm, .createA, initialState, initialState, none, none⟩)

/-- Modelled from the spec: `update` on an instrumented container — perform
the core update and emit an `update` event carrying old/new state when logging
is enabled. -/
def updateL (cl : CellL) (reducer : JSValue → JSValue) :
    CellL × List (Nat × JSValue) × List LogEvent :=
  let u := update cl.core reducer
  ({ cl with core := u.1 }, u.2,
    emitIf cl.loggingEnabled fun _ =>
      ⟨cl.name, .updateA, u.1.currentState, u.1.previousState, none, none⟩)

/-- Modelled from the spec: `subscribe` on an instrumented container — perform
the core registration and immediate invocation and emit a `subscribe` event
when logging is enabled. -/
def subscribeL (cl : CellL) (selector : Option (JSValue → JSValue))
    (isEqual : Option (JSValue → JSValue → Bool)) :
    CellL × (Nat × JSValue) × List LogEvent :=
  let r := subscribeOk cl.core selector isEqual
  ({ cl with core := r.1 }, r.2.2,
    emitIf cl.loggingEnabled fun _ =>
      ⟨cl.name, .subscribeA, cl.core.currentState, cl.core.previousState,
        some (applySel selector cl.core.currentState), none⟩)

/-- Creation in the first `src/src/index.ts` variant (lines 54-81): identical
to `cell` except that `pusu.createPublication` receives the object
`{ name: "cell" }` instead of the plain string. -/
def cellV1 (initialState : JSValue) : Cell :=
  { pubArg := .obj 0 [("name", .str "cell")]
    previousState := initialState
    currentState := initialState
    subs := []
    nextId := 0 }

/-- Creation in the second `src/src/index.ts` variant (lines 194-219):
`pusu.createPublication` receives the plain string `"cell"`. -/
def cellV2 (initialState : JSValue) : Cell :=
  { pubArg := .str "cell"
    previousState := initialState
    currentState := initialState
    subs := []
    nextId := 0 }

/-- The registration and immediate-invocation part of `subscribe` in the first
`src/src/index.ts` variant (lines 103-124). -/
def subscribeOkV1 (c : Cell) (selector : Option (JSValue → JSValue))
    (areEqual : Option (JSValue → JSValue → Bool)) :
    Cell × Nat × (Nat × JSValue) :=
  let subId := c.nextId
  let c1 : Cell :=
    { c with subs := c.subs ++ [⟨subId, selector, areEqual⟩], nextId := subId + 1 }
  (c1, subId, (subId, applySel selector c.currentState))

/-- `subscribe` of the first `src/src/index.ts` variant (lines 83-125) on
untyped arguments, carrying the literal thrown message of each guard: that
variant throws `Error("areEqual must be a function.")` from its third guard
(lines 99-101), where `src/unnamed/part_001` throws
`Error("isEqual must be a function.")`. -/
def subscribeMsgV1 (c : Cell) (subscriber : Arg Unit)
    (selector : Arg (JSValue → JSValue)) (areEqual : Arg (JSValue → JSValue → Bool)) :
    Except String (Cell × Nat × (Nat × JSValue)) :=
  if typeofFn subscriber = false then .error "subscriber must be a function."
  else if truthyArg selector && !typeofFn selector then
    .error "selector must be a function."
  else if truthyArg areEqual && !typeofFn areEqual then
    .error "areEqual must be a function."
  else
    let sel : Option (JSValue → JSValue) :=
      match selector with
      | .fn f => some f
      | .val _ => none
    let eq : Option (JSValue → JSValue → Bool) :=
      match areEqual with
      | .fn f => some f
      | .val _ => none
    .ok (subscribeOkV1 c sel eq)

/-- `publish` of the first `src/src/index.ts` variant (lines 127-133): the
state-updating operation, named `publish` there. -/
def publishV1 (c : Cell) (reducer : JSValue → JSValue) : Cell × List (Nat × JSValue) :=
  let c1 : Cell := { c with previousState := c.currentState }
  let c2 : Cell := { c1 with currentState := reducer c1.currentState }
  (c2, publishFire c2 c2.currentState)

/-- The registration and immediate-invocation part of `subscribe` in the
second `src/src/index.ts` variant (lines 241-262). -/
def subscribeOkV2 (c : Cell) (selector : Option (JSValue → JSValue))
    (areEqual : Option (JSValue → JSValue → Bool)) :
    Cell × Nat × (Nat × JSValue) :=
  let subId := c.nextId
  let c1 : Cell :=
    { c with subs := c.subs ++ [⟨subId, selector, areEqual⟩], nextId := subId + 1 }
  (c1, subId, (subId, applySel selector c.currentState))

/-- `subscribe` of the second `src/src/index.ts` variant (lines 221-263) on
untyped arguments, carrying the literal thrown message of each guard (its
third guard, lines 237-239, also throws
`Error("areEqual must be a function.")`). -/
def subscribeMsgV2 (c : Cell) (subscriber : Arg Unit)
    (selector : Arg (JSValue → JSValue)) (areEqual : Arg (JSValue → JSValue → Bool)) :
    Except String (Cell × Nat × (Nat × JSValue)) :=
  if typeofFn subscriber = false then .error "subscriber must be a function."
  else if truthyArg selector && !typeofFn selector then
    .error "selector must be a function."
  else if truthyArg areEqual && !typeofFn areEqual then
    .error "areEqual must be a function."
  else
    let sel : Option (JSValue → JSValue) :=
      match selector with
      | .fn f => some f
      | .val _ => none
    let eq : Option (JSValue → JSValue → Bool) :=
      match areEqual with
      | .fn f => some f
      | .val _ => none
    .ok (subscribeOkV2 c sel eq)

/-- `publish` of the second `src/src/index.ts` variant (lines 265-271). -/
def publishV2 (c : Cell) (reducer : JSValue → JSValue) : Cell × List (Nat × JSValue) :=
  let c1 : Cell := { c with previousState := c.currentState }
  let c2 : Cell := { c1 with currentState := reducer c1.currentState }
  (c2, publishFire c2 c2.currentState)

/-- `subscribe` of `src/unnamed/part_001` (lines 21-63) on untyped arguments,
carrying the literal thrown message of each guard (lines 29-39): its third
guard throws `Error("isEqual must be a function.")`.  Same validation order
and success behavior as `subscribeJS`, which abstracts the messages into the
spec's error taxonomy. -/
def subscribeMsg (c : Cell) (subscriber : Arg Unit)
    (selector : Arg (JSValue → JSValue)) (isEqual : Arg (JSValue → JSValue → Bool)) :
    Except String (Cell × Nat × (Nat × JSValue)) :=
  if typeofFn subscriber = false then .error "subscriber must be a function."
  else if truthyArg selector && !typeofFn selector then
    .error "selector must be a function."
  else if truthyArg isEqual && !typeofFn isEqual then
    .error "isEqual must be a function."
  else
    let sel : Option (JSValue → JSValue) :=
      match selector with
      | .fn f => some f
      | .val _ => none
    let eq : Option (JSValue → JSValue → Bool) :=
      match isEqual with
      | .fn f => some f
      | .val _ => none
    .ok (subscribeOk c sel eq)

/-- Filtering a list twice with the same predicate is the same as filtering it
once. -/
theorem filter_self_idem {α : Type} (p : α → Bool) (l : List α) :
    List.filter p (List.filter p l) = List.filter p l := by
  induction l with
  | nil => rfl
  | cons a l ih => by_cases h : p a = true <;> simp [List.filter_cons, h, ih]

/-- A successful `subscribeJS` call always returns the result of
`subscribeOk` on the unchanged cell, for some resolved selector and equality
policy. -/
theorem subscribeJS_ok_shape {c : Cell} {a : Arg Unit} {b : Arg (JSValue → JSValue)}
    {d : Arg (JSValue → JSValue → Bool)} {r : Cell × Nat × (Nat × JSValue)}
    (h : subscribeJS c a b d = .ok r) :
    ∃ sel eq, r = subscribeOk c sel eq := by
  unfold subscribeJS at h
  split at h
  · exact Except.noConfusion h
  split at h
  · exact Except.noConfusion h
  split at h
  · exact Except.noConfusion h
  exact ⟨_, _, (Except.ok.inj h).symm⟩

/-- A `subscribe` call never modifies `previousState` or `currentState`. -/
theorem subscribeStep_preserves_state (c : Cell) (a : Arg Unit)
    (b : Arg (JSValue → JSValue)) (d : Arg (JSValue → JSValue → Bool)) :
    (subscribeStep c a b d).1.previousState = c.previousState ∧
    (subscribeStep c a b d).1.currentState = c.currentState := by
  unfold subscribeStep
  rcases hs : subscribeJS c a b d with e | r
  · exact ⟨rfl, rfl⟩
  · rcases subscribeJS_ok_shape hs with ⟨sel, eq, rfl⟩
    exact ⟨rfl, rfl⟩

/-- The length of the folded-state list equals the number of reducers. -/
theorem folds_length (ts : List (JSValue → JSValue)) :
    ∀ s : JSValue, (folds s ts).length = ts.length := by
  induction ts with
  | nil => intro s; rfl
  | cons t ts ih => intro s; simp [folds, ih]

/-- Running updates on a cell whose only registered handler has no selector
and no equality policy: when every update changes the state under `===`, the
handler's subscriber is invoked once per update with the folded state. -/
theorem runUpdates_single_identity_sub (i : Nat) :
    ∀ (ts : List (JSValue → JSValue)) (c : Cell),
      c.subs = [⟨i, none, none⟩] →
      stepsChanged c.currentState ts = true →
      (runUpdates c ts).2 = (folds c.currentState ts).map fun v => (i, v) := by
  intro ts
  induction ts with
  | nil => intro c _ _; rfl
  | cons t ts ih =>
    intro c hsubs hch
    rw [stepsChanged] at hch
    simp only [Bool.and_eq_true] at hch
    rcases hch with ⟨hne, hrest⟩
    rw [Bool.not_eq_true'] at hne
    rw [runUpdates, folds, List.map_cons]
    have hhead : (update c t).2 = [(i, t c.currentState)] := by
      simp only [update, publishFire, hsubs, List.filterMap_cons, List.filterMap_nil,
        handlerFire, applySel, fnIsEqual, hne]
      simp
    have htail : (runUpdates (update c t).1 ts).2 =
        (folds (t c.currentState) ts).map fun v => (i, v) := by
      have h1 : (update c t).1.subs = [⟨i, none, none⟩] := hsubs
      have h2 : (update c t).1.currentState = t c.currentState := rfl
      have := ih (update c t).1 h1 (by rw [h2]; exact hrest)
      rwa [h2] at this
    simp [hhead, htail]

/-- Every invocation produced by a broadcast carries the id of a registered
handler. -/
theorem publishFire_id_mem {c : Cell} {st : JSValue} {p : Nat × JSValue}
    (h : p ∈ publishFire c st) : ∃ s, s ∈ c.subs ∧ s.id = p.1 := by
  rcases List.mem_filterMap.mp h with ⟨s, hs, hmap⟩
  rcases Option.map_eq_some'.mp hmap with ⟨v, _, hpv⟩
  exact ⟨s, hs, by rw [← hpv]⟩

/-- If no registered handler carries id `i`, no sequence of updates ever
produces an invocation with id `i`. -/
theorem runUpdates_ids_away (i : Nat) :
    ∀ (ts : List (JSValue → JSValue)) (c : Cell),
      (∀ s ∈ c.subs, s.id ≠ i) →
      ((runUpdates c ts).2.all fun p => p.1 != i) = true := by
  intro ts
  induction ts with
  | nil => intro c _; rfl
  | cons t ts ih =>
    intro c hc
    rw [runUpdates]
    simp only [List.all_append, Bool.and_eq_true]
    refine ⟨?_, ih (update c t).1 fun s hs => hc s hs⟩
    rw [List.all_eq_true]
    intro p hp
    have hp' : p ∈ publishFire (update c t).1 (update c t).1.currentState := hp
    rcases publishFire_id_mem hp' with ⟨s, hs, hid⟩
    have : s.id ≠ i := hc s hs
    simpa [← hid] using this

/-- C1: on every broadcast, a subscription with selector `sel` and equality
policy `eq` computes `previousSelected = sel(oldState)` and
`currentSelected = sel(newState)` and invokes the subscriber with
`currentSelected` exactly when `eq currentSelected previousSelected` is false;
an omitted selector selects the full state and the omitted equality policy is
strict identity `===`; in the concrete `name`/`address` scenario an update
changing only `address` does not invoke the subscriber and an update changing
`name` to `"b"` invokes it with `"b"`. -/
theorem C1_dispatch_gating :
    (∀ (pa pv cv : JSValue) (sel : Option (JSValue → JSValue))
        (eq : Option (JSValue → JSValue → Bool)) (i : Nat)
        (reducer : JSValue → JSValue),
      (update ⟨pa, pv, cv, [⟨i, sel, eq⟩], i + 1⟩ reducer).2 =
        (if fnIsEqual eq (applySel sel (reducer cv)) (applySel sel cv) = true then []
         else [(i, applySel sel (reducer cv))]))
    ∧ (∀ v : JSValue, applySel none v = v)
    ∧ (∀ a b : JSValue, fnIsEqual none a b = strictEq a b)
    ∧ ((update ((subscribeOk (cell (JSValue.obj 0 [("name", .str "a"), ("address", .str "x")]))
          (some fun s => getField s "name") none).1)
          (fun _ => JSValue.obj 1 [("name", .str "a"), ("address", .str "y")])).2 = [])
    ∧ ((update ((update ((subscribeOk (cell (JSValue.obj 0 [("name", .str "a"), ("address", .str "x")]))
          (some fun s => getField s "name") none).1)
          (fun _ => JSValue.obj 1 [("name", .str "a"), ("address", .str "y")])).1)
          (fun _ => JSValue.obj 2 [("name", .str "b"), ("address", .str "y")])).2
        = [(0, JSValue.str "b")]) := by
  refine ⟨?_, fun v => rfl, fun a b => rfl, rfl, rfl⟩
  intro pa pv cv sel eq i reducer
  simp only [update, publishFire, handlerFire, List.filterMap]
  by_cases h : fnIsEqual eq (applySel sel (reducer cv)) (applySel sel cv) = true <;>
    simp [h]

/-- C4: every successful `subscribe` call invokes the subscriber exactly once
before returning, with `selector(currentState)` (the full current state when
no selector is given), independently of the equality policy; in particular a
container created with `S0` and immediately subscribed with no selector
delivers exactly one immediate invocation carrying `S0`. -/
theorem C4_immediate_invocation :
    (∀ (c : Cell) (sel : Option (JSValue → JSValue))
        (eq : Option (JSValue → JSValue → Bool)),
      (subscribeOk c sel eq).2.2 = (c.nextId, applySel sel c.currentState))
    ∧ (∀ (c : Cell) (eq : Option (JSValue → JSValue → Bool)),
      (subscribeOk c none eq).2.2 = (c.nextId, c.currentState))
    ∧ (∀ (c : Cell) (sel : Option (JSValue → JSValue))
        (e1 e2 : Option (JSValue → JSValue → Bool)),
      (subscribeOk c sel e1).2.2 = (subscribeOk c sel e2).2.2)
    ∧ (∀ (c : Cell) (f : JSValue → JSValue) (e : JSValue → JSValue → Bool),
      subscribeJS c (.fn ()) (.fn f) (.fn e) = .ok (subscribeOk c (some f) (some e)))
    ∧ (∀ c : Cell,
      subscribeJS c (.fn ()) (.val .undefined) (.val .undefined) = .ok (subscribeOk c none none))
    ∧ (∀ s0 : JSValue, (subscribeOk (cell s0) none none).2.2 = (0, s0)) :=
  ⟨fun _ _ _ => rfl, fun _ _ => rfl, fun _ _ _ _ => rfl, fun _ _ _ => rfl,
    fun _ => rfl, fun _ => rfl⟩

/-- C10 counterexample: the variants are not extensionally equal beyond the
operation name and the `createPublication` argument shape — on the same call
with a callable subscriber, a callable selector and the non-callable equality
policy `123`, the first `src/src/index.ts` variant throws
`Error("areEqual must be a function.")` while `src/unnamed/part_001` throws
`Error("isEqual must be a function.")`, an observable difference the repo's
own tests distinguish. -/
theorem C10_messages_counterexample :
    subscribeMsgV1 (cell (JSValue.num 0)) (.fn ()) (.fn fun s => s)
        (.val (JSValue.num 123))
      = Except.error "areEqual must be a function." ∧
    subscribeMsg (cell (JSValue.num 0)) (.fn ()) (.fn fun s => s)
        (.val (JSValue.num 123))
      = Except.error "isEqual must be a function." ∧
    subscribeMsgV1 (cell (JSValue.num 0)) (.fn ()) (.fn fun s => s)
        (.val (JSValue.num 123))
      ≠ subscribeMsg (cell (JSValue.num 0)) (.fn ()) (.fn fun s => s)
        (.val (JSValue.num 123)) :=
  ⟨rfl, rfl, fun h => absurd (Except.error.inj h) (by decide)⟩

/-- C10 (amended): the three implementation variants have extensionally equal
creation, registration, dispatch and state-updating behavior, with exactly
three interface differences: the state-updating operation's name (`publish`
in the `index.ts` variants, `update` in `part_001`), the argument passed to
`pusu.createPublication` (an object with a name field in the first variant,
the plain string `"cell"` in the other two), and the message of the
equality-policy validation error (`"areEqual must be a function."` in the
`index.ts` variants, `"isEqual must be a function."` in `part_001`): on every
input the two `index.ts` `subscribe`s behave identically, and each agrees
with `part_001`'s `subscribe` except exactly when the equality-policy guard
fires, where they throw those two respective messages. -/
theorem C10_variants_equivalence_corrected :
    subscribeOkV1 = subscribeOk ∧ subscribeOkV2 = subscribeOk
    ∧ publishV1 = update ∧ publishV2 = update
    ∧ (∀ s0 : JSValue, cellV2 s0 = cell s0)
    ∧ (∀ s0 : JSValue,
        (cellV1 s0).previousState = (cell s0).previousState ∧
        (cellV1 s0).currentState = (cell s0).currentState ∧
        (cellV1 s0).subs = (cell s0).subs ∧
        (cellV1 s0).nextId = (cell s0).nextId)
    ∧ (∀ s0 : JSValue,
        (cellV1 s0).pubArg = JSValue.obj 0 [("name", JSValue.str "cell")] ∧
        (cell s0).pubArg = JSValue.str "cell")
    ∧ subscribeMsgV2 = subscribeMsgV1
    ∧ (∀ (c : Cell) (a : Arg Unit) (b : Arg (JSValue → JSValue))
        (d : Arg (JSValue → JSValue → Bool)),
        subscribeMsgV1 c a b d = subscribeMsg c a b d ∨
        (subscribeMsgV1 c a b d = Except.error "areEqual must be a function." ∧
          subscribeMsg c a b d = Except.error "isEqual must be a function.")) := by
  refine ⟨rfl, rfl, rfl, rfl, fun _ => rfl,
    fun _ => ⟨rfl, rfl, rfl, rfl⟩, fun _ => ⟨rfl, rfl⟩, rfl, ?_⟩
  intro c a b d
  unfold subscribeMsgV1 subscribeMsg
  by_cases h1 : typeofFn a = false
  · left
    simp [h1]
  · by_cases h2 : (truthyArg b && !typeofFn b) = true
    · left
      simp [h1, h2]
    · by_cases h3 : (truthyArg d && !typeofFn d) = true
      · right
        simp [h1, h2, h3]
      · left
        simp [h1, h2, h3]
        rfl

/-- C2 counterexample: with initial state `0` and a single `update` whose
transform is the identity, the subscriber with identity selector and default
equality policy is invoked only once (the immediate invocation), not
`n + 1 = 2` times — the broadcast of the unchanged state is suppressed by the
default equality policy. -/
theorem C2_counterexample :
    identitySubInvocations (JSValue.num 0) [fun s => s] = [(0, JSValue.num 0)] ∧
    (identitySubInvocations (JSValue.num 0) [fun s => s]).length ≠ 1 + 1 :=
  ⟨rfl, by decide⟩

/-- C2 (amended): for every initial state and every sequence of `n` update
calls in which each transform's result is not strictly identical (`===`) to
the state it was applied to, a subscriber registered with the identity
selector and the default equality policy is invoked exactly `n + 1` times:
once immediately on subscribe with the initial state and once per update with
the correctly folded state. -/
theorem C2_invocation_count (s0 : JSValue) (ts : List (JSValue → JSValue))
    (h : stepsChanged s0 ts = true) :
    identitySubInvocations s0 ts = (s0 :: folds s0 ts).map (fun v => (0, v)) ∧
    (identitySubInvocations s0 ts).length = ts.length + 1 := by
  have hsubs : (subscribeOk (cell s0) none none).1.subs = [⟨0, none, none⟩] := rfl
  have hcur : (subscribeOk (cell s0) none none).1.currentState = s0 := rfl
  have hrun := runUpdates_single_identity_sub 0 ts (subscribeOk (cell s0) none none).1
    hsubs (by rw [hcur]; exact h)
  rw [hcur] at hrun
  constructor
  · show (0, s0) :: (runUpdates (subscribeOk (cell s0) none none).1 ts).2 = _
    rw [hrun, List.map_cons]
  · show ((0, s0) :: (runUpdates (subscribeOk (cell s0) none none).1 ts).2).length = _
    rw [hrun]
    simp [folds_length]

/-- C2 witness: the amended count law at initial state `0` and one
state-changing update. -/
theorem C2_invocation_count_witness :
    stepsChanged (JSValue.num 0) [fun _ => JSValue.num 1] = true ∧
    identitySubInvocations (JSValue.num 0) [fun _ => JSValue.num 1] =
      [(0, JSValue.num 0), (0, JSValue.num 1)] :=
  ⟨rfl, by
    have := (C2_invocation_count (JSValue.num 0) [fun _ => JSValue.num 1] rfl).1
    simpa [folds] using this⟩

/-- C3 counterexample: the falsy non-callable selector `false`, supplied to
`subscribe` together with a callable subscriber, does not fail with
`InvalidSelector` — the guard `selector && typeof selector !== "function"`
skips falsy values, so the call succeeds and the selector is treated as
absent. -/
theorem C3_counterexample :
    subscribeJS (cell (JSValue.num 0)) (Arg.fn ()) (Arg.val (JSValue.bool false))
        (Arg.val JSValue.undefined)
      = Except.ok (subscribeOk (cell (JSValue.num 0)) none none) ∧
    subscribeJS (cell (JSValue.num 0)) (Arg.fn ()) (Arg.val (JSValue.bool false))
        (Arg.val JSValue.undefined)
      ≠ Except.error SubscribeError.invalidSelector :=
  ⟨rfl, fun h => Except.noConfusion h⟩

/-- C3 (amended): `subscribe` validates synchronously before any side effect:
it fails with `InvalidSubscriber` for every non-callable subscriber (covering
booleans, numbers, strings, symbols and arrays); it fails with
`InvalidSelector` for every supplied truthy non-callable selector and with
`InvalidEqualityPolicy` for every supplied truthy non-callable equality
policy, while a falsy non-callable selector or equality policy is treated as
absent; on any failure no subscription is registered and the subscriber is
never invoked. -/
theorem C3_validation :
    (∀ (c : Cell) (v : JSValue) (sa : Arg (JSValue → JSValue))
        (ea : Arg (JSValue → JSValue → Bool)),
      subscribeJS c (.val v) sa ea = .error .invalidSubscriber ∧
      subscribeStep c (.val v) sa ea = (c, []))
    ∧ (∀ (c : Cell) (v : JSValue) (ea : Arg (JSValue → JSValue → Bool)),
        truthy v = true →
      subscribeJS c (.fn ()) (.val v) ea = .error .invalidSelector ∧
      subscribeStep c (.fn ()) (.val v) ea = (c, []))
    ∧ (∀ (c : Cell) (f : JSValue → JSValue) (v : JSValue), truthy v = true →
      subscribeJS c (.fn ()) (.fn f) (.val v) = .error .invalidEqualityPolicy ∧
      subscribeStep c (.fn ()) (.fn f) (.val v) = (c, []))
    ∧ (∀ (c : Cell) (v w : JSValue), truthy v = false → truthy w = false →
      subscribeJS c (.fn ()) (.val v) (.val w) = .ok (subscribeOk c none none)) := by
  refine ⟨?_, ?_, ?_, ?_⟩
  · intro c v sa ea
    exact ⟨rfl, by simp [subscribeStep, subscribeJS, typeofFn]⟩
  · intro c v ea h
    have h1 : subscribeJS c (.fn ()) (.val v) ea = .error .invalidSelector := by
      simp [subscribeJS, typeofFn, truthyArg, h]
    exact ⟨h1, by simp [subscribeStep, h1]⟩
  · intro c f v h
    have h1 : subscribeJS c (.fn ()) (.fn f) (.val v) = .error .invalidEqualityPolicy := by
      simp [subscribeJS, typeofFn, truthyArg, h]
    exact ⟨h1, by simp [subscribeStep, h1]⟩
  · intro c v w hv hw
    simp [subscribeJS, typeofFn, truthyArg, hv, hw]

/-- C3 witness: the amended validation law at concrete inputs — the truthy
non-callable selector `123` fails with `InvalidSelector`, and the falsy
non-callable selector and equality policy `false`/`undefined` are treated as
absent. -/
theorem C3_validation_witness :
    truthy (JSValue.num 123) = true ∧
    subscribeJS (cell (JSValue.num 0)) (Arg.fn ()) (Arg.val (JSValue.num 123))
        (Arg.val JSValue.undefined)
      = Except.error SubscribeError.invalidSelector ∧
    truthy (JSValue.bool false) = false ∧ truthy JSValue.undefined = false ∧
    subscribeJS (cell (JSValue.num 1)) (Arg.fn ()) (Arg.val (JSValue.bool false))
        (Arg.val JSValue.undefined)
      = Except.ok (subscribeOk (cell (JSValue.num 1)) none none) :=
  ⟨rfl,
    (C3_validation.2.1 (cell (JSValue.num 0)) (JSValue.num 123)
      (Arg.val JSValue.undefined) rfl).1,
    rfl, rfl,
    C3_validation.2.2.2 (cell (JSValue.num 1)) (JSValue.bool false) JSValue.undefined
      rfl rfl⟩

/-- C5: on creation both state fields equal the supplied initial state; an
`update` sets `previousState` to the value `currentState` held immediately
before it and `currentState` to the transform's result; `subscribe` (in every
outcome) and `unsubscribe` leave both fields unchanged. -/
theorem C5_state_fields_invariant :
    (∀ s0 : JSValue, (cell s0).previousState = s0 ∧ (cell s0).currentState = s0)
    ∧ (∀ (c : Cell) (r : JSValue → JSValue),
      (update c r).1.previousState = c.currentState ∧
      (update c r).1.currentState = r c.currentState)
    ∧ (∀ (c : Cell) (a : Arg Unit) (b : Arg (JSValue → JSValue))
        (d : Arg (JSValue → JSValue → Bool)),
      (subscribeStep c a b d).1.previousState = c.previousState ∧
      (subscribeStep c a b d).1.currentState = c.currentState)
    ∧ (∀ (c : Cell) (i : Nat),
      (unsubscribeCell c i).previousState = c.previousState ∧
      (unsubscribeCell c i).currentState = c.currentState) :=
  ⟨fun _ => ⟨rfl, rfl⟩, fun _ _ => ⟨rfl, rfl⟩,
    fun c a b d => subscribeStep_preserves_state c a b d,
    fun _ _ => ⟨rfl, rfl⟩⟩

/-- C6: after unsubscribing handler `i`, no sequence of subsequent `update`
calls produces any invocation of that subscriber; unsubscribing a second time
is a no-op (the model is a total function, so no exception is possible, and
removal by id is idempotent). -/
theorem C6_unsubscribe_semantics :
    (∀ (c : Cell) (i : Nat) (ts : List (JSValue → JSValue)),
      ((runUpdates (unsubscribeCell c i) ts).2.all fun p => p.1 != i) = true)
    ∧ (∀ (c : Cell) (i : Nat),
      unsubscribeCell (unsubscribeCell c i) i = unsubscribeCell c i) := by
  constructor
  · intro c i ts
    refine runUpdates_ids_away i ts _ ?_
    intro s hs
    have hmem := List.mem_filter.mp hs
    simpa using hmem.2
  · intro c i
    simp [unsubscribeCell, filter_self_idem]

/-- C7: `update` performs no validation of its transform: the transform is
invoked exactly once, synchronously, with the current state (the outcome
depends on the transform only through its value there, and a counting
transform increments exactly once), and a failure raised by invoking the
transform propagates to the caller unmodified. -/
theorem C7_transform_invocation :
    (∀ (c : Cell) (e : String),
      (updateE c fun _ => Except.error e).2 = Except.error e)
    ∧ (∀ (c : Cell) (r1 r2 : JSValue → Except String JSValue),
        r1 c.currentState = r2 c.currentState → updateE c r1 = updateE c r2)
    ∧ (∀ (c : Cell) (r1 r2 : JSValue → JSValue),
        r1 c.currentState = r2 c.currentState → update c r1 = update c r2)
    ∧ (∀ (c : Cell) (k : Int), c.currentState = .num k →
      (update c fun s => match s with | .num n => .num (n + 1) | x => x).1.currentState
        = .num (k + 1)) := by
  refine ⟨fun c e => rfl, ?_, ?_, ?_⟩
  · intro c r1 r2 h
    unfold updateE
    dsimp only
    rw [h]
  · intro c r1 r2 h
    unfold update
    dsimp only
    rw [h]
  · intro c k h
    show (fun s => match s with | JSValue.num n => JSValue.num (n + 1) | x => x)
      c.currentState = JSValue.num (k + 1)
    rw [h]

/-- C7 witness: the transform-dependence and counting laws at concrete
inputs. -/
theorem C7_transform_invocation_witness :
    ((fun _ => (Except.ok (JSValue.num 1) : Except String JSValue))
        (cell (JSValue.num 1)).currentState
      = (fun s => (Except.ok s : Except String JSValue))
        (cell (JSValue.num 1)).currentState) ∧
    updateE (cell (JSValue.num 1))
        (fun _ => (Except.ok (JSValue.num 1) : Except String JSValue))
      = updateE (cell (JSValue.num 1))
        (fun s => (Except.ok s : Except String JSValue)) ∧
    (cell (JSValue.num 5)).currentState = JSValue.num 5 ∧
    (update (cell (JSValue.num 5))
      fun s => match s with | JSValue.num n => JSValue.num (n + 1) | x => x).1.currentState
      = JSValue.num 6 :=
  ⟨rfl,
    C7_transform_invocation.2.1 (cell (JSValue.num 1))
      (fun _ => Except.ok (JSValue.num 1)) (fun s => Except.ok s) rfl,
    rfl,
    C7_transform_invocation.2.2.2 (cell (JSValue.num 5)) 5 rfl⟩

/-- C9: when the transform throws on the current state, `update` propagates
the exception unmodified, publishes nothing (no subscriber invocation occurs
for that call), and leaves `currentState` unchanged — but `previousState` has
already been overwritten with the current state before the transform ran, so
the pre-update history in `previousState` is lost. -/
theorem C9_throwing_transform {ε : Type} (c : Cell) (r : JSValue → Except ε JSValue)
    (e : ε) (h : r c.currentState = Except.error e) :
    updateE c r = ({ c with previousState := c.currentState }, Except.error e) ∧
    (updateE c r).1.currentState = c.currentState ∧
    (updateE c r).1.previousState = c.currentState ∧
    (updateE c r).2 = Except.error e := by
  have h1 : updateE c r = ({ c with previousState := c.currentState }, Except.error e) := by
    unfold updateE
    dsimp only
    rw [h]
  exact ⟨h1, by rw [h1], by rw [h1], by rw [h1]⟩

/-- C9 witness: a cell holding `8` after one update from `7`, hit with a
throwing transform — the exception propagates and `previousState` is
overwritten with `8` while `currentState` stays `8`. -/
theorem C9_throwing_transform_witness :
    (fun _ : JSValue => (Except.error "boom" : Except String JSValue))
      ((update (cell (JSValue.num 7)) fun _ => JSValue.num 8).1.currentState)
      = Except.error "boom" ∧
    (updateE ((update (cell (JSValue.num 7)) fun _ => JSValue.num 8).1)
      (fun _ : JSValue => (Except.error "boom" : Except String JSValue))).1.previousState
      = JSValue.num 8 ∧
    (updateE ((update (cell (JSValue.num 7)) fun _ => JSValue.num 8).1)
      (fun _ : JSValue => (Except.error "boom" : Except String JSValue))).1.currentState
      = JSValue.num 8 :=
  ⟨rfl,
    (C9_throwing_transform ((update (cell (JSValue.num 7)) fun _ => JSValue.num 8).1)
      (fun _ => Except.error "boom") "boom" rfl).2.2.1,
    (C9_throwing_transform ((update (cell (JSValue.num 7)) fun _ => JSValue.num 8).1)
      (fun _ => Except.error "boom") "boom" rfl).2.1⟩

/-- C8: creation accepts an optional configuration with a `name` option
(default `"Unknown"`) and a `loggingEnabled` option (default `false`);
creation allocates one underlying topic and, when logging is enabled, emits a
`create` event whose current and previous state both equal the initial state;
when logging is disabled no operation emits any event. -/
theorem C8_creation_config :
    (∀ s0 : JSValue,
      (cellL s0 none).1.name = "Unknown" ∧
      (cellL s0 none).1.loggingEnabled = false ∧
      (cellL s0 none).1.core = cell s0 ∧
      (cellL s0 none).2 = [])
    ∧ (∀ (s0 : JSValue) (nm : String) (b : Bool),
      (cellL s0 (some ⟨some nm, some b⟩)).1.name = nm ∧
      (cellL s0 (some ⟨some nm, some b⟩)).1.loggingEnabled = b)
    ∧ (∀ (s0 : JSValue) (cfg : Option Config), (cellL s0 cfg).1.topicCount = 1)
    ∧ (∀ (s0 : JSValue) (nm : String),
      (cellL s0 (some ⟨some nm, some true⟩)).2 =
        [⟨nm, .createA, s0, s0, none, none⟩])
    ∧ (∀ (cl : CellL) (r : JSValue → JSValue),
        cl.loggingEnabled = false → (updateL cl r).2.2 = [])
    ∧ (∀ (cl : CellL) (sel : Option (JSValue → JSValue))
        (eq : Option (JSValue → JSValue → Bool)),
        cl.loggingEnabled = false → (subscribeL cl sel eq).2.2 = [])
    ∧ (∀ (s0 : JSValue) (cfg : Option Config),
        (cellL s0 cfg).1.loggingEnabled = false → (cellL s0 cfg).2 = []) := by
  refine ⟨fun s0 => ⟨rfl, rfl, rfl, rfl⟩, fun s0 nm b => ⟨rfl, rfl⟩,
    fun s0 cfg => rfl, fun s0 nm => rfl, ?_, ?_, ?_⟩
  · intro cl r h
    simp [updateL, emitIf, h]
  · intro cl sel eq h
    simp [subscribeL, emitIf, h]
  · intro s0 cfg h
    have : ((cfg.bind fun cf => cf.loggingEnabled).getD false) = false := h
    simp [cellL, emitIf, this]

/-- C8 witness: gating at concrete inputs — the default-configured container
has logging disabled and its `update` and `subscribe` emit no events. -/
theorem C8_creation_config_witness :
    (cellL (JSValue.num 0) none).1.loggingEnabled = false ∧
    (updateL (cellL (JSValue.num 0) none).1 fun _ => JSValue.num 1).2.2 = [] ∧
    (subscribeL (cellL (JSValue.num 0) none).1 none none).2.2 = [] ∧
    (cellL (JSValue.num 0) none).2 = [] :=
  ⟨rfl,
    C8_creation_config.2.2.2.2.1 (cellL (JSValue.num 0) none).1
      (fun _ => JSValue.num 1) rfl,
    C8_creation_config.2.2.2.2.2.1 (cellL (JSValue.num 0) none).1 none none rfl,
    C8_creation_config.2.2.2.2.2.2 (JSValue.num 0) none rfl⟩
